import Mathlib

/-!
Verification development for the `lsd_ceph` repository.

Part 1 embeds the librbd shim of `src/script/librbd.cc` (the "NULL
implementation"): every exported function prints one trace line and returns 0,
reading and writing nothing else.  Each C function becomes a Lean function that
takes its arguments, the current values of its out-parameters, and the backing
store, and returns the C return value, the out-parameter values after the call,
the store after the call, and the lines printed.

Part 2 models the designed core that the repository's documentation specifies
(completion engine, image session registry, I/O dispatch, backend transport);
that code is not present in the repository, so those definitions are modelled
from the spec and are marked as such.
-/

namespace LibrbdStub

/-- The backing store reachable from the shim, byte-addressed.  The stubbed
functions never read or write it. -/
def Store : Type := Nat → Nat

/-- Result of one stubbed C call: the `int`/`ssize_t` return value, the values
of the caller's out-parameters after the call, the backing store after the
call, and the lines printed to stdout by the call. -/
structure CRet (α : Type) where
  ret : Int
  out : α
  store : Store
  printed : List String

/-- The trace line printed by the stubs: `printf("librbd NULL implementation: in %s\n", __func__)`. -/
def traceLine (fn : String) : String :=
  "librbd NULL implementation: in " ++ fn ++ "\n"

/-- `rbd_open` (librbd.cc:36): prints its trace line (with two trailing spaces
in the source format string) and returns 0; the out-parameter `image` is never
written. -/
def rbd_open (p : Nat) (name : String) (image : Nat) (snap_name : String)
    (s : Store) : CRet Nat :=
  ⟨0, image, s, ["librbd NULL implementation: in rbd_open  \n"]⟩

/-- `rbd_close` (librbd.cc:43): prints and returns 0. -/
def rbd_close (image : Nat) (s : Store) : CRet Unit :=
  ⟨0, (), s, [traceLine "rbd_close"]⟩

/-- `rbd_stat` (librbd.cc:49): prints and returns 0; the caller's `info`
struct is never written. -/
def rbd_stat (image : Nat) (info : Nat) (infosize : Nat) (s : Store) : CRet Nat :=
  ⟨0, info, s, [traceLine "rbd_stat"]⟩

/-- `rbd_resize` (librbd.cc:57): prints and returns 0 (the real resize code is
commented out in the source). -/
def rbd_resize (image : Nat) (size : Nat) (s : Store) : CRet Unit :=
  ⟨0, (), s, [traceLine "rbd_resize"]⟩

/-- `rbd_get_size` (librbd.cc:69): prints and returns 0; the `size`
out-parameter is never written. -/
def rbd_get_size (image : Nat) (size : Nat) (s : Store) : CRet Nat :=
  ⟨0, size, s, [traceLine "rbd_get_size"]⟩

/-- `rbd_create` (librbd.cc:76): prints and returns 0; `order` is never
written. -/
def rbd_create (p : Nat) (name : String) (size : Nat) (order : Int)
    (s : Store) : CRet Int :=
  ⟨0, order, s, [traceLine "rbd_create"]⟩

/-- `rbd_remove` (librbd.cc:84): prints and returns 0. -/
def rbd_remove (p : Nat) (name : String) (s : Store) : CRet Unit :=
  ⟨0, (), s, [traceLine "rbd_remove"]⟩

/-- `rbd_aio_release` (librbd.cc:92): void, empty body, prints nothing. -/
def rbd_aio_release (c : Nat) (s : Store) : Store × List String :=
  (s, [])

/-- `rbd_aio_create_completion` (librbd.cc:97): prints and returns 0; the
completion out-parameter `c` is never written and nothing is allocated. -/
def rbd_aio_create_completion (cb_arg : Nat) (complete_cb : Nat) (c : Nat)
    (s : Store) : CRet Nat :=
  ⟨0, c, s, [traceLine "rbd_aio_create_completion"]⟩

/-- `rbd_aio_readv` (librbd.cc:105): prints and returns 0; the caller's iovec
buffers (modelled by their byte contents) are never written and the store is
never read. -/
def rbd_aio_readv (image : Nat) (iov : List (List Nat)) (iovcnt : Int)
    (off : Nat) (c : Nat) (s : Store) : CRet (List (List Nat)) :=
  ⟨0, iov, s, [traceLine "rbd_aio_readv"]⟩

/-- `rbd_aio_writev` (librbd.cc:114): prints and returns 0; nothing is read
from the iovecs and nothing reaches the store. -/
def rbd_aio_writev (image : Nat) (iov : List (List Nat)) (iovcnt : Int)
    (off : Nat) (c : Nat) (s : Store) : CRet (List (List Nat)) :=
  ⟨0, iov, s, [traceLine "rbd_aio_writev"]⟩

/-- `rbd_aio_discard` (librbd.cc:122): prints and returns 0. -/
def rbd_aio_discard (image : Nat) (off : Nat) (len : Nat) (c : Nat)
    (s : Store) : CRet Unit :=
  ⟨0, (), s, [traceLine "rbd_aio_discard"]⟩

/-- `rbd_aio_flush` (librbd.cc:131): prints and returns 0. -/
def rbd_aio_flush (image : Nat) (c : Nat) (s : Store) : CRet Unit :=
  ⟨0, (), s, [traceLine "rbd_aio_flush"]⟩

/-- `rbd_aio_write_zeroes` (librbd.cc:139): prints and returns 0. -/
def rbd_aio_write_zeroes (image : Nat) (off : Nat) (len : Nat) (c : Nat)
    (zero_flags : Int) (op_flags : Int) (s : Store) : CRet Unit :=
  ⟨0, (), s, [traceLine "rbd_aio_write_zeroes"]⟩

/-- `rbd_aio_get_return_value` (librbd.cc:149, returns `ssize_t`): prints and
returns 0. -/
def rbd_aio_get_return_value (c : Nat) (s : Store) : CRet Unit :=
  ⟨0, (), s, [traceLine "rbd_aio_get_return_value"]⟩

/-- `rbd_invalidate_cache` (librbd.cc:157): prints and returns 0. -/
def rbd_invalidate_cache (image : Nat) (s : Store) : CRet Unit :=
  ⟨0, (), s, [traceLine "rbd_invalidate_cache"]⟩

/-- `rbd_snap_create` (librbd.cc:165): prints and returns 0. -/
def rbd_snap_create (image : Nat) (snap_name : String) (s : Store) : CRet Unit :=
  ⟨0, (), s, [traceLine "rbd_snap_create"]⟩

/-- `rbd_snap_remove` (librbd.cc:172): prints and returns 0. -/
def rbd_snap_remove (image : Nat) (snap_name : String) (s : Store) : CRet Unit :=
  ⟨0, (), s, [traceLine "rbd_snap_remove"]⟩

/-- `rbd_snap_rollback` (librbd.cc:178): prints and returns 0. -/
def rbd_snap_rollback (image : Nat) (snap_name : String) (s : Store) : CRet Unit :=
  ⟨0, (), s, [traceLine "rbd_snap_rollback"]⟩

/-- `rbd_snap_list` (librbd.cc:185): prints and returns 0; neither the `snaps`
buffer nor `max_snaps` is written. -/
def rbd_snap_list (image : Nat) (snaps : List Nat) (max_snaps : Int)
    (s : Store) : CRet (List Nat × Int) :=
  ⟨0, (snaps, max_snaps), s, [traceLine "rbd_snap_list"]⟩

/-- `rbd_snap_list_end` (librbd.cc:192): void, prints its trace line. -/
def rbd_snap_list_end (snaps : List Nat) (s : Store) : Store × List String :=
  (s, [traceLine "rbd_snap_list_end"])

/-- One call to any stubbed ABI function that returns `int` or `ssize_t`,
with its arguments. -/
inductive AbiCall where
  | callOpen (p : Nat) (name : String) (image : Nat) (snap_name : String)
  | callClose (image : Nat)
  | callStat (image : Nat) (info : Nat) (infosize : Nat)
  | callResize (image : Nat) (size : Nat)
  | callGetSize (image : Nat) (size : Nat)
  | callCreate (p : Nat) (name : String) (size : Nat) (order : Int)
  | callRemove (p : Nat) (name : String)
  | callAioCreateCompletion (cb_arg : Nat) (complete_cb : Nat) (c : Nat)
  | callAioReadv (image : Nat) (iov : List (List Nat)) (iovcnt : Int) (off : Nat) (c : Nat)
  | callAioWritev (image : Nat) (iov : List (List Nat)) (iovcnt : Int) (off : Nat) (c : Nat)
  | callAioDiscard (image : Nat) (off : Nat) (len : Nat) (c : Nat)
  | callAioFlush (image : Nat) (c : Nat)
  | callAioWriteZeroes (image : Nat) (off : Nat) (len : Nat) (c : Nat) (zero_flags : Int) (op_flags : Int)
  | callAioGetReturnValue (c : Nat)
  | callInvalidateCache (image : Nat)
  | callSnapCreate (image : Nat) (snap_name : String)
  | callSnapRemove (image : Nat) (snap_name : String)
  | callSnapRollback (image : Nat) (snap_name : String)
  | callSnapList (image : Nat) (snaps : List Nat) (max_snaps : Int)

/-- The return value of a stubbed ABI call. -/
def retOf (call : AbiCall) (s : Store) : Int :=
  match call with
  | .callOpen p name image snap_name => (rbd_open p name image snap_name s).ret
  | .callClose image => (rbd_close image s).ret
  | .callStat image info infosize => (rbd_stat image info infosize s).ret
  | .callResize image size => (rbd_resize image size s).ret
  | .callGetSize image size => (rbd_get_size image size s).ret
  | .callCreate p name size order => (rbd_create p name size order s).ret
  | .callRemove p name => (rbd_remove p name s).ret
  | .callAioCreateCompletion cb_arg complete_cb c => (rbd_aio_create_completion cb_arg complete_cb c s).ret
  | .callAioReadv image iov iovcnt off c => (rbd_aio_readv image iov iovcnt off c s).ret
  | .callAioWritev image iov iovcnt off c => (rbd_aio_writev image iov iovcnt off c s).ret
  | .callAioDiscard image off len c => (rbd_aio_discard image off len c s).ret
  | .callAioFlush image c => (rbd_aio_flush image c s).ret
  | .callAioWriteZeroes image off len c zero_flags op_flags =>
      (rbd_aio_write_zeroes image off len c zero_flags op_flags s).ret
  | .callAioGetReturnValue c => (rbd_aio_get_return_value c s).ret
  | .callInvalidateCache image => (rbd_invalidate_cache image s).ret
  | .callSnapCreate image snap_name => (rbd_snap_create image snap_name s).ret
  | .callSnapRemove image snap_name => (rbd_snap_remove image snap_name s).ret
  | .callSnapRollback image snap_name => (rbd_snap_rollback image snap_name s).ret
  | .callSnapList image snaps max_snaps => (rbd_snap_list image snaps max_snaps s).ret

/-- The backing store after a stubbed ABI call. -/
def storeOf (call : AbiCall) (s : Store) : Store :=
  match call with
  | .callOpen p name image snap_name => (rbd_open p name image snap_name s).store
  | .callClose image => (rbd_close image s).store
  | .callStat image info infosize => (rbd_stat image info infosize s).store
  | .callResize image size => (rbd_resize image size s).store
  | .callGetSize image size => (rbd_get_size image size s).store
  | .callCreate p name size order => (rbd_create p name size order s).store
  | .callRemove p name => (rbd_remove p name s).store
  | .callAioCreateCompletion cb_arg complete_cb c => (rbd_aio_create_completion cb_arg complete_cb c s).store
  | .callAioReadv image iov iovcnt off c => (rbd_aio_readv image iov iovcnt off c s).store
  | .callAioWritev image iov iovcnt off c => (rbd_aio_writev image iov iovcnt off c s).store
  | .callAioDiscard image off len c => (rbd_aio_discard image off len c s).store
  | .callAioFlush image c => (rbd_aio_flush image c s).store
  | .callAioWriteZeroes image off len c zero_flags op_flags =>
      (rbd_aio_write_zeroes image off len c zero_flags op_flags s).store
  | .callAioGetReturnValue c => (rbd_aio_get_return_value c s).store
  | .callInvalidateCache image => (rbd_invalidate_cache image s).store
  | .callSnapCreate image snap_name => (rbd_snap_create image snap_name s).store
  | .callSnapRemove image snap_name => (rbd_snap_remove image snap_name s).store
  | .callSnapRollback image snap_name => (rbd_snap_rollback image snap_name s).store
  | .callSnapList image snaps max_snaps => (rbd_snap_list image snaps max_snaps s).store

/-- The lines printed by a stubbed ABI call. -/
def printedOf (call : AbiCall) (s : Store) : List String :=
  match call with
  | .callOpen p name image snap_name => (rbd_open p name image snap_name s).printed
  | .callClose image => (rbd_close image s).printed
  | .callStat image info infosize => (rbd_stat image info infosize s).printed
  | .callResize image size => (rbd_resize image size s).printed
  | .callGetSize image size => (rbd_get_size image size s).printed
  | .callCreate p name size order => (rbd_create p name size order s).printed
  | .callRemove p name => (rbd_remove p name s).printed
  | .callAioCreateCompletion cb_arg complete_cb c => (rbd_aio_create_completion cb_arg complete_cb c s).printed
  | .callAioReadv image iov iovcnt off c => (rbd_aio_readv image iov iovcnt off c s).printed
  | .callAioWritev image iov iovcnt off c => (rbd_aio_writev image iov iovcnt off c s).printed
  | .callAioDiscard image off len c => (rbd_aio_discard image off len c s).printed
  | .callAioFlush image c => (rbd_aio_flush image c s).printed
  | .callAioWriteZeroes image off len c zero_flags op_flags =>
      (rbd_aio_write_zeroes image off len c zero_flags op_flags s).printed
  | .callAioGetReturnValue c => (rbd_aio_get_return_value c s).printed
  | .callInvalidateCache image => (rbd_invalidate_cache image s).printed
  | .callSnapCreate image snap_name => (rbd_snap_create image snap_name s).printed
  | .callSnapRemove image snap_name => (rbd_snap_remove image snap_name s).printed
  | .callSnapRollback image snap_name => (rbd_snap_rollback image snap_name s).printed
  | .callSnapList image snaps max_snaps => (rbd_snap_list image snaps max_snaps s).printed

/-- The trace line each stubbed ABI call prints (only `rbd_open` deviates from
the common format, with two trailing spaces). -/
def traceOf (call : AbiCall) : String :=
  match call with
  | .callOpen _ _ _ _ => "librbd NULL implementation: in rbd_open  \n"
  | .callClose _ => traceLine "rbd_close"
  | .callStat _ _ _ => traceLine "rbd_stat"
  | .callResize _ _ => traceLine "rbd_resize"
  | .callGetSize _ _ => traceLine "rbd_get_size"
  | .callCreate _ _ _ _ => traceLine "rbd_create"
  | .callRemove _ _ => traceLine "rbd_remove"
  | .callAioCreateCompletion _ _ _ => traceLine "rbd_aio_create_completion"
  | .callAioReadv _ _ _ _ _ => traceLine "rbd_aio_readv"
  | .callAioWritev _ _ _ _ _ => traceLine "rbd_aio_writev"
  | .callAioDiscard _ _ _ _ => traceLine "rbd_aio_discard"
  | .callAioFlush _ _ => traceLine "rbd_aio_flush"
  | .callAioWriteZeroes _ _ _ _ _ _ => traceLine "rbd_aio_write_zeroes"
  | .callAioGetReturnValue _ => traceLine "rbd_aio_get_return_value"
  | .callInvalidateCache _ => traceLine "rbd_invalidate_cache"
  | .callSnapCreate _ _ => traceLine "rbd_snap_create"
  | .callSnapRemove _ _ => traceLine "rbd_snap_remove"
  | .callSnapRollback _ _ => traceLine "rbd_snap_rollback"
  | .callSnapList _ _ _ => traceLine "rbd_snap_list"

end LibrbdStub

namespace LibrbdStub

/-- Claim C2: every stubbed ABI function of the shim that returns `int` or
`ssize_t` returns 0 for every possible argument value, prints exactly its one
trace line, and never touches the backing store. -/
theorem stub_returns_zero_prints_trace_no_store (call : AbiCall) (s : Store) :
    retOf call s = 0 ∧ storeOf call s = s ∧ printedOf call s = [traceOf call] := by
  cases call <;> exact ⟨rfl, rfl, rfl⟩

/-- Claim C3: at the ABI boundary every exported stubbed operation returns 0,
hence always a nonnegative value; under the convention (0 or positive =
success, negative = failure) every call reports success, and the clause that a
failing operation never returns 0 holds because the stub has no failure path at
all: no argument value can make any of these functions return a negative
value. -/
theorem abi_return_convention (call : AbiCall) (s : Store) :
    retOf call s = 0 ∧ 0 ≤ retOf call s ∧ ¬ retOf call s < 0 := by
  have h : retOf call s = 0 := by cases call <;> rfl
  refine ⟨h, ?_, ?_⟩ <;> simp [h]

/-- Claim C8: `rbd_aio_readv` returns 0 (reported success) for every argument
while leaving every byte of the caller-supplied iovec buffers unchanged — a
read that reports success delivers no data. -/
theorem rbd_aio_readv_returns_zero_buffers_unchanged (image : Nat)
    (iov : List (List Nat)) (iovcnt : Int) (off : Nat) (c : Nat) (s : Store) :
    (rbd_aio_readv image iov iovcnt off c s).ret = 0 ∧
    (rbd_aio_readv image iov iovcnt off c s).out = iov ∧
    (rbd_aio_readv image iov iovcnt off c s).store = s :=
  ⟨rfl, rfl, rfl⟩

/-- Claim C9: `rbd_get_size` returns 0 without ever writing through the `size`
out-parameter: the caller's value is the same after the call as before. -/
theorem rbd_get_size_returns_zero_size_unchanged (image : Nat) (size : Nat)
    (s : Store) :
    (rbd_get_size image size s).ret = 0 ∧
    (rbd_get_size image size s).out = size :=
  ⟨rfl, rfl⟩

/-- Claim C10: `rbd_aio_create_completion` returns 0 without writing through
the completion out-parameter `c`: no completion object is allocated and the
caller's value is unchanged. -/
theorem rbd_aio_create_completion_returns_zero_c_unchanged (cb_arg : Nat)
    (complete_cb : Nat) (c : Nat) (s : Store) :
    (rbd_aio_create_completion cb_arg complete_cb c s).ret = 0 ∧
    (rbd_aio_create_completion cb_arg complete_cb c s).out = c :=
  ⟨rfl, rfl⟩

end LibrbdStub

namespace LibrbdDesign

/-- Modelled from the spec: the error taxonomy of the designed shim (the
completion engine, dispatch layer and registry are described in the
repository's documentation but not implemented under the repository's source
tree). -/
inductive Err where
  | invalidArgument
  | invalidHandle
  | channelClosed
  | contractViolation
deriving DecidableEq

/-- Modelled from the spec: a correctly behaving backend's byte store, byte
addressed. -/
def BackendStore : Type := Nat → Nat

/-- Modelled from the spec: a backend write places `data` at byte offset
`off`; all other bytes are untouched. -/
def writeBytes (s : BackendStore) (off : Nat) (data : List Nat) : BackendStore :=
  fun a => if off ≤ a ∧ a < off + data.length then data.getD (a - off) 0 else s a

/-- Modelled from the spec: a backend read of `len` bytes starting at `off`. -/
def readBytes (s : BackendStore) (off len : Nat) : List Nat :=
  (List.range len).map fun i => s (off + i)

/-- Modelled from the spec: flush is a durability barrier passed through to
the backend; it does not change the stored bytes. -/
def flushStore (s : BackendStore) : BackendStore := s

/-- Modelled from the spec: a sequence of writes, applied in the order their
completions were observed. -/
def applyWrites (s : BackendStore) (ws : List (Nat × List Nat)) : BackendStore :=
  ws.foldl (fun acc w => writeBytes acc w.1 w.2) s

theorem readBytes_writeBytes (s : BackendStore) (off : Nat) (data : List Nat) :
    readBytes (writeBytes s off data) off data.length = data := by
  apply List.ext_getElem
  · simp [readBytes]
  · intro i h1 h2
    simp only [readBytes, List.getElem_map, List.getElem_range, writeBytes]
    rw [if_pos ⟨Nat.le_add_right off i, by omega⟩]
    rw [Nat.add_sub_cancel_left]
    exact List.getD_eq_getElem data 0 h2

/-- Modelled from the spec: the per-operation completion state machine:
`Pending → Complete` or `Pending → Failed`, terminal states absorbing. -/
inductive OpState where
  | pending
  | complete (r : Int)
  | failed (e : Int)
deriving DecidableEq

/-- A terminal completion state (Complete or Failed). -/
def isTerminal (st : OpState) : Prop := st ≠ OpState.pending

/-- Modelled from the spec: one PendingOperation: user callback argument, the
completion state, and how many times the user callback has been invoked. -/
structure PendingOp where
  cb_arg : Nat
  state : OpState
  callbackRuns : Nat
deriving DecidableEq

/-- Modelled from the spec: `create(callback, arg)` allocates a
PendingOperation in `Pending`; the callback has not run. -/
def createCompletion (cb_arg : Nat) : PendingOp :=
  ⟨cb_arg, OpState.pending, 0⟩

/-- Modelled from the spec: `resolve(requestId, result)` transitions the
matching PendingOperation to its terminal state (Complete for a nonnegative
result, Failed otherwise), records the result, and invokes the callback
exactly once; a second resolution attempt is a programming-contract violation
and is rejected without changing the operation. -/
def resolveOp (op : PendingOp) (result : Int) : Except Err PendingOp :=
  match op.state with
  | OpState.pending =>
      Except.ok { op with
        state := if 0 ≤ result then OpState.complete result else OpState.failed result,
        callbackRuns := op.callbackRuns + 1 }
  | _ => Except.error Err.contractViolation

/-- A sequence of resolution attempts against one PendingOperation; a rejected
attempt leaves the operation as it was. -/
def runResolves (op : PendingOp) (results : List Int) : PendingOp :=
  results.foldl (fun acc r =>
    match resolveOp acc r with
    | Except.ok op2 => op2
    | Except.error _ => acc) op

theorem runResolves_terminal_fixed (op : PendingOp) (results : List Int)
    (h : isTerminal op.state) : runResolves op results = op := by
  induction results with
  | nil => rfl
  | cons r rs ih =>
      have hres : resolveOp op r = Except.error Err.contractViolation := by
        unfold resolveOp
        cases hst : op.state with
        | pending => exact absurd hst h
        | complete v => rfl
        | failed v => rfl
      simp only [runResolves, List.foldl_cons, hres]
      exact ih

theorem resolveOp_pending_fresh (cb_arg : Nat) (r : Int) :
    resolveOp (createCompletion cb_arg) r =
      Except.ok ⟨cb_arg,
        if 0 ≤ r then OpState.complete r else OpState.failed r, 1⟩ := rfl

/-- Claim C1: writes applied in completion order, then a flush observed after
them, then a read of the range of the most recent write of that range: the
read returns exactly the written bytes (round trip against a correctly
behaving backend). -/
theorem write_flush_read_roundtrip (s : BackendStore) (ws : List (Nat × List Nat))
    (off : Nat) (data : List Nat) :
    readBytes (flushStore (writeBytes (applyWrites s ws) off data)) off data.length
      = data :=
  readBytes_writeBytes (applyWrites s ws) off data

/-- Claim C4: a PendingOperation created in `Pending` and subjected to any
nonempty sequence of resolution attempts delivers exactly one completion event
(the user callback runs exactly once), ends in a terminal state, and that
state is the one reached by the first resolution: terminal states are
absorbing and later attempts change nothing. -/
theorem pending_op_exactly_one_completion (cb_arg : Nat) (r : Int) (rs : List Int) :
    (runResolves (createCompletion cb_arg) (r :: rs)).callbackRuns = 1 ∧
    isTerminal (runResolves (createCompletion cb_arg) (r :: rs)).state ∧
    (runResolves (createCompletion cb_arg) (r :: rs)).state =
      (runResolves (createCompletion cb_arg) [r]).state := by
  have hterm : isTerminal
      (PendingOp.mk cb_arg
        (if 0 ≤ r then OpState.complete r else OpState.failed r) 1).state := by
    unfold isTerminal
    by_cases h0 : 0 ≤ r <;> simp [h0]
  have hstep : runResolves (createCompletion cb_arg) (r :: rs) =
      runResolves
        ⟨cb_arg, if 0 ≤ r then OpState.complete r else OpState.failed r, 1⟩ rs := by
    simp only [runResolves, List.foldl_cons, resolveOp_pending_fresh]
  rw [hstep, runResolves_terminal_fixed _ rs hterm]
  refine ⟨rfl, hterm, ?_⟩
  have hone : runResolves (createCompletion cb_arg) [r] =
      ⟨cb_arg, if 0 ≤ r then OpState.complete r else OpState.failed r, 1⟩ := by
    simp only [runResolves, List.foldl_cons, resolveOp_pending_fresh, List.foldl_nil]
  rw [hone]

/-- Modelled from the spec: the backend transport client; `requestCount`
counts the framed requests sent to the backend over this connection. -/
structure Transport where
  requestCount : Nat
deriving DecidableEq

/-- Modelled from the spec: `send(request)` enqueues one framed request on the
transport. -/
def sendRequest (t : Transport) : Transport :=
  { t with requestCount := t.requestCount + 1 }

/-- Modelled from the spec: `writeSame` in the I/O dispatch layer; the
precondition is that `len` is an integer multiple of the pattern-buffer
length, a violation is a local `InvalidArgument` and nothing is sent to the
backend. -/
def writeSame (t : Transport) (off len : Nat) (pattern : List Nat) :
    Except Err Unit × Transport :=
  if len % pattern.length = 0 then (Except.ok (), sendRequest t)
  else (Except.error Err.invalidArgument, t)

/-- Modelled from the spec: `write(handle, offset, length, sourceBuffer)` in
the I/O dispatch layer; the precondition is `sourceBuffer` length at least
`length`, a violation is a local `InvalidArgument` and nothing is sent to the
backend; on success the backend request is sent and `length` bytes are
reported written. -/
def writeOp (t : Transport) (handle off len : Nat) (sourceBuffer : List Nat) :
    Except Err Nat × Transport :=
  if sourceBuffer.length < len then (Except.error Err.invalidArgument, t)
  else (Except.ok len, sendRequest t)

/-- Claim C5: a `writeSame` call whose length is not a multiple of the pattern
length returns the local `InvalidArgument` error and sends no request to the
backend: the transport request counter stays at zero. -/
theorem writeSame_invalid_length_no_request (t : Transport) (off len : Nat)
    (pattern : List Nat) (hmod : ¬ len % pattern.length = 0)
    (h0 : t.requestCount = 0) :
    (writeSame t off len pattern).1 = Except.error Err.invalidArgument ∧
    (writeSame t off len pattern).2.requestCount = 0 := by
  rw [writeSame, if_neg hmod]
  exact ⟨rfl, h0⟩

/-- Witness for C5 at a concrete input: length 5, pattern of 2 bytes, fresh
transport. -/
theorem writeSame_invalid_length_no_request_witness :
    (writeSame ⟨0⟩ 0 5 [7, 7]).1 = Except.error Err.invalidArgument ∧
    (writeSame ⟨0⟩ 0 5 [7, 7]).2.requestCount = 0 :=
  writeSame_invalid_length_no_request ⟨0⟩ 0 5 [7, 7] (by decide) rfl

/-- Claim C7: a write whose source buffer is shorter than the requested length
fails locally with `InvalidArgument` before any backend request is sent: the
transport request counter is unchanged. -/
theorem write_short_buffer_no_request (t : Transport) (handle off len : Nat)
    (sourceBuffer : List Nat) (hshort : sourceBuffer.length < len) :
    (writeOp t handle off len sourceBuffer).1 = Except.error Err.invalidArgument ∧
    (writeOp t handle off len sourceBuffer).2.requestCount = t.requestCount := by
  rw [writeOp, if_pos hshort]
  exact ⟨rfl, rfl⟩

/-- Witness for C7 at a concrete input: a 2-byte buffer for a 4-byte write. -/
theorem write_short_buffer_no_request_witness :
    (writeOp ⟨0⟩ 1 0 4 [9, 9]).1 = Except.error Err.invalidArgument ∧
    (writeOp ⟨0⟩ 1 0 4 [9, 9]).2.requestCount = Transport.requestCount ⟨0⟩ :=
  write_short_buffer_no_request ⟨0⟩ 1 0 4 [9, 9] (by decide)

/-- Modelled from the spec: one open image session: image name and the set of
outstanding (dispatched, not yet released) operations on the handle. -/
structure Session where
  name : String
  outstanding : List PendingOp
deriving DecidableEq

/-- Modelled from the spec: the image session registry: a monotonic handle
counter (handles are never reused) and the table of live sessions keyed by
handle. -/
structure Registry where
  nextHandle : Nat
  sessions : List (Nat × Session)
deriving DecidableEq

/-- Modelled from the spec: `open` allocates a fresh handle from the monotonic
counter and installs a session with no outstanding operations; it returns the
new registry and the handle. -/
def openImage (reg : Registry) (name : String) : Registry × Nat :=
  (⟨reg.nextHandle + 1, (reg.nextHandle, ⟨name, []⟩) :: reg.sessions⟩,
   reg.nextHandle)

/-- Modelled from the spec: `lookup(handle)`: resolves a handle against the
live-session table. -/
def lookupSession (reg : Registry) (h : Nat) : Option Session :=
  (reg.sessions.find? fun e => e.1 == h).map fun e => e.2

/-- Modelled from the spec: every dispatch resolves its handle first; a
handle not in the table fails with `InvalidHandleError`, otherwise the
operation joins the handle's outstanding set. -/
def dispatchOp (reg : Registry) (h : Nat) (op : PendingOp) : Except Err Registry :=
  match lookupSession reg h with
  | none => Except.error Err.invalidHandle
  | some _ =>
      Except.ok ⟨reg.nextHandle,
        reg.sessions.map fun e =>
          if e.1 == h then (e.1, ⟨e.2.name, op :: e.2.outstanding⟩) else e⟩

/-- Modelled from the spec: during close the registry waits for each
outstanding operation to resolve; an operation still pending receives its
(backend-abstracted) completion, an already terminal one is untouched. -/
def drainOp (op : PendingOp) : PendingOp :=
  match resolveOp op 0 with
  | Except.ok op2 => op2
  | Except.error _ => op

/-- Modelled from the spec: `close(handle)` drains the handle's outstanding
operations and then removes the handle from the table; it returns the new
registry and the drained operations. -/
def closeImage (reg : Registry) (h : Nat) : Except Err (Registry × List PendingOp) :=
  match lookupSession reg h with
  | none => Except.error Err.invalidHandle
  | some sess =>
      Except.ok (⟨reg.nextHandle, reg.sessions.filter fun e => !(e.1 == h)⟩,
        sess.outstanding.map drainOp)

/-- A sequence of dispatches on one handle, stopping at the first failure. -/
def dispatchAll (reg : Registry) (h : Nat) : List PendingOp → Except Err Registry
  | [] => Except.ok reg
  | op :: ops =>
      match dispatchOp reg h op with
      | Except.ok reg2 => dispatchAll reg2 h ops
      | Except.error e => Except.error e

theorem dispatchOp_keys (reg reg2 : Registry) (h : Nat) (op : PendingOp)
    (hd : dispatchOp reg h op = Except.ok reg2) :
    reg2.sessions.map Prod.fst = reg.sessions.map Prod.fst := by
  unfold dispatchOp at hd
  cases hl : lookupSession reg h with
  | none => rw [hl] at hd; exact absurd hd (by simp)
  | some sess =>
      rw [hl] at hd
      simp only [Except.ok.injEq] at hd
      subst hd
      simp only []
      induction reg.sessions with
      | nil => rfl
      | cons a l ih =>
          simp only [List.map_cons, List.cons.injEq]
          constructor
          · by_cases hh : a.1 == h <;> simp [hh]
          · exact ih

theorem dispatchAll_keys (ops : List PendingOp) :
    ∀ reg reg2 : Registry, ∀ h : Nat, dispatchAll reg h ops = Except.ok reg2 →
      reg2.sessions.map Prod.fst = reg.sessions.map Prod.fst := by
  induction ops with
  | nil =>
      intro reg reg2 h hd
      simp only [dispatchAll, Except.ok.injEq] at hd
      subst hd
      rfl
  | cons op ops ih =>
      intro reg reg2 h hd
      unfold dispatchAll at hd
      cases hstep : dispatchOp reg h op with
      | error e => rw [hstep] at hd; exact absurd hd (by simp)
      | ok regmid =>
          rw [hstep] at hd
          exact (ih regmid reg2 h hd).trans (dispatchOp_keys reg regmid h op hstep)

theorem lookupSession_isSome_of_keys (reg reg2 : Registry) (h : Nat)
    (hk : reg2.sessions.map Prod.fst = reg.sessions.map Prod.fst)
    (hs : (lookupSession reg h).isSome) : (lookupSession reg2 h).isSome := by
  have hmem : ∀ l : List (Nat × Session),
      (l.find? fun e => e.1 == h).isSome ↔ h ∈ l.map Prod.fst := by
    intro l
    rw [List.find?_isSome]
    constructor
    · rintro ⟨e, he, hbe⟩
      exact List.mem_map.mpr ⟨e, he, by simpa using hbe⟩
    · intro hm
      obtain ⟨e, he, hfst⟩ := List.mem_map.mp hm
      exact ⟨e, he, by simp [hfst]⟩
  unfold lookupSession at hs ⊢
  rw [Option.isSome_map'] at hs ⊢
  rw [hmem] at hs ⊢
  rw [hk]
  exact hs

theorem drainOp_terminal (op : PendingOp) : isTerminal (drainOp op).state := by
  cases hst : op.state <;>
    simp [drainOp, resolveOp, hst, isTerminal]

/-- Claim C6: after a successful open, any successfully dispatched sequence of
operations, and then a close of the handle: the close succeeds, every
operation it drained has reached a terminal state, and a dispatch attempted on
the handle after the close fails with `InvalidHandleError`. -/
theorem close_drains_and_invalidates_handle (reg : Registry) (name : String)
    (ops : List PendingOp) (op : PendingOp) (reg2 : Registry)
    (hdisp : dispatchAll (openImage reg name).1 (openImage reg name).2 ops =
      Except.ok reg2) :
    ∃ reg3 drained,
      closeImage reg2 (openImage reg name).2 = Except.ok (reg3, drained) ∧
      (∀ q ∈ drained, isTerminal q.state) ∧
      dispatchOp reg3 (openImage reg name).2 op = Except.error Err.invalidHandle := by
  have hk := dispatchAll_keys ops (openImage reg name).1 reg2
    (openImage reg name).2 hdisp
  have hs1 : (lookupSession (openImage reg name).1 (openImage reg name).2).isSome := by
    simp [lookupSession, openImage, List.find?]
  have hs2 := lookupSession_isSome_of_keys (openImage reg name).1 reg2
    (openImage reg name).2 hk hs1
  obtain ⟨sess, hsess⟩ := Option.isSome_iff_exists.mp hs2
  refine ⟨⟨reg2.nextHandle,
      reg2.sessions.filter fun e => !(e.1 == (openImage reg name).2)⟩,
    sess.outstanding.map drainOp, ?_, ?_, ?_⟩
  · unfold closeImage
    rw [hsess]
  · intro q hq
    obtain ⟨p, hp, hpq⟩ := List.mem_map.mp hq
    rw [← hpq]
    exact drainOp_terminal p
  · have hnone : lookupSession
        ⟨reg2.nextHandle,
          reg2.sessions.filter fun e => !(e.1 == (openImage reg name).2)⟩
        (openImage reg name).2 = none := by
      have hfind : ((reg2.sessions.filter
            fun e => !(e.1 == (openImage reg name).2)).find?
          fun e => e.1 == (openImage reg name).2) = none := by
        rw [List.find?_eq_none]
        intro x hx
        have hxf := (List.mem_filter.mp hx).2
        simp at hxf ⊢
        exact hxf
      unfold lookupSession
      rw [hfind]
      rfl
    unfold dispatchOp
    rw [hnone]

/-- Witness for C6 at a concrete input: fresh registry, image "disk0", one
dispatched operation, one dispatch attempted after close. -/
theorem close_drains_and_invalidates_handle_witness :
    ∃ reg3 drained,
      closeImage ⟨1, [(0, ⟨"disk0", [⟨5, OpState.pending, 0⟩]⟩)]⟩
          (openImage ⟨0, []⟩ "disk0").2 = Except.ok (reg3, drained) ∧
      (∀ q ∈ drained, isTerminal q.state) ∧
      dispatchOp reg3 (openImage ⟨0, []⟩ "disk0").2 ⟨6, OpState.pending, 0⟩ =
        Except.error Err.invalidHandle :=
  close_drains_and_invalidates_handle ⟨0, []⟩ "disk0" [⟨5, OpState.pending, 0⟩]
    ⟨6, OpState.pending, 0⟩ ⟨1, [(0, ⟨"disk0", [⟨5, OpState.pending, 0⟩]⟩)]⟩
    (by rfl)

end LibrbdDesign
